import Mathlib

/-!
Verification of the codeChecker quality-check engine
(`scripts/quality-check.js`) against its natural-language specification.

Strings are modelled as lists of characters (`Str`); JavaScript regular
expressions are modelled by a small token language (`RTok`) together with a
backtracking matcher (`matchFirst`) that reproduces the leftmost-first,
greedy, in-order-alternative search of the JS engine, including the
statefulness of `lastIndex` on `/g` regexes, which the source shares across
lines and files.  File contents are ASCII in all scenarios considered, so
the character classes `\s` and `\w` are modelled by their ASCII subsets.
-/

namespace QualityCheck

/-- Strings are modelled as lists of characters (JS strings, ASCII range). -/
abbrev Str := List Char

/-- JS `\s` character class (ASCII subset). -/
def isWsChar (c : Char) : Bool :=
  c = ' ' ∨ c = '\t' ∨ c = '\n' ∨ c = '\r' ∨ c = Char.ofNat 11 ∨ c = Char.ofNat 12

/-- JS `\w` character class: `[A-Za-z0-9_]`. -/
def isWordChar (c : Char) : Bool :=
  ('a' ≤ c ∧ c ≤ 'z') ∨ ('A' ≤ c ∧ c ≤ 'Z') ∨ ('0' ≤ c ∧ c ≤ '9') ∨ c = '_'

/-- JS `\d` character class. -/
def isDigitChar (c : Char) : Bool := '0' ≤ c ∧ c ≤ '9'

/-- A single-quote or double-quote character (the JS class `['"]`). -/
def isQuoteChar (c : Char) : Bool := c = '\'' ∨ c = '"'

/-- Case folding of one character (ASCII, as used by the `/i` regex flag). -/
def lowerChar (c : Char) : Char := c.toLower

/-- Case folding of a string. -/
def toLowerStr (s : Str) : Str := s.map lowerChar

/-- `charAt s i`: the character of `s` at index `i`, if in range. -/
def charAt (s : Str) (i : Nat) : Option Char := s.get? i

/-- Does the literal `l` occur in `s` starting exactly at index `i`?
`ci` selects case-insensitive comparison (the `/i` flag). -/
def litAt (l : Str) (ci : Bool) (s : Str) (i : Nat) : Bool :=
  let seg := (s.drop i).take l.length
  if ci then toLowerStr seg = toLowerStr l else seg = l

/-- Length of the maximal run of characters satisfying `p` starting at `i`. -/
def runLen (p : Char → Bool) (s : Str) (i : Nat) : Nat :=
  ((s.drop i).takeWhile p).length

/-- Scan used by the negative lookahead `(?!.*lit)`: does `lit` occur at some
position reachable from the start of `t` without crossing a newline
(JS `.` does not match `\n`)? -/
def nlaScan (l : Str) (ci : Bool) : Str → Bool
  | [] => litAt l ci [] 0
  | c :: r => litAt l ci (c :: r) 0 ∨ (c ≠ '\n' ∧ nlaScan l ci r)

/-- JS word-boundary `\b` at position `i` of `s`. -/
def wordBoundary (s : Str) (i : Nat) : Bool :=
  let before := match i with
    | 0 => false
    | j + 1 => ((charAt s j).map isWordChar).getD false
  let after := ((charAt s i).map isWordChar).getD false
  before ≠ after

/-- JS `$` with the `/m` flag: end of input or just before a `\n`. -/
def isEol (s : Str) (i : Nat) : Bool :=
  i = s.length ∨ charAt s i = some '\n'

/-!  ### Regex tokens and matcher

Each regex literal of the source is transcribed as a sequence of tokens
(one alternative) or as several such sequences (a top-level alternation).
The constructs used by the source are: literals, alternation of literals
(for groups such as `(TABLE|DATABASE)`, and for `s?` as `s|ε`), character
classes under `*` or `+`, a single character from a class, the negative
lookahead form `(?!.*lit)`, the word boundary `\b`, and the multiline `$`.
-/

/-- One regex token. -/
inductive RTok where
  /-- a literal string; the `Bool` is the case-insensitivity flag -/
  | lit : Str → Bool → RTok
  /-- alternation of literals, tried in the given order -/
  | litalts : List Str → Bool → RTok
  /-- character class repeated; the `Bool` demands at least one char (`+`) -/
  | cls : (Char → Bool) → Bool → RTok
  /-- exactly one character of the class -/
  | one : (Char → Bool) → RTok
  /-- negative lookahead `(?!.*lit)` -/
  | nla : Str → Bool → RTok
  /-- word boundary `\b` -/
  | wb : RTok
  /-- end of line `$` under the `/m` flag (also matches end of input) -/
  | eol : RTok

/-- `matchFirst toks s i`: end position of the first match of the token
sequence `toks` at position `i` of `s`, searching in the JS backtracking
order (greedy repetition, alternatives in order), or `none`. -/
def matchFirst : List RTok → Str → Nat → Option Nat
  | [], _, i => some i
  | .lit l ci :: ts, s, i =>
      if litAt l ci s i then matchFirst ts s (i + l.length) else none
  | .litalts ls ci :: ts, s, i =>
      ls.findSome? (fun l =>
        if litAt l ci s i then matchFirst ts s (i + l.length) else none)
  | .cls p min1 :: ts, s, i =>
      let run := runLen p s i
      (List.range (run + 1)).reverse.findSome? (fun k =>
        if min1 ∧ k = 0 then none else matchFirst ts s (i + k))
  | .one p :: ts, s, i =>
      match charAt s i with
      | some c => if p c then matchFirst ts s (i + 1) else none
      | none => none
  | .nla l ci :: ts, s, i =>
      if nlaScan l ci (s.drop i) then none else matchFirst ts s i
  | .wb :: ts, s, i => if wordBoundary s i then matchFirst ts s i else none
  | .eol :: ts, s, i => if isEol s i then matchFirst ts s i else none

/-- A regex: a top-level alternation of token sequences. -/
structure Regex where
  alts : List (List RTok)

/-- First match of `re` at exactly position `i` (alternatives in order). -/
def matchAt (re : Regex) (s : Str) (i : Nat) : Option Nat :=
  re.alts.findSome? (fun toks => matchFirst toks s i)

/-- `RegExp.prototype.exec` search: the leftmost match `(start, end)` of `re`
in `s` beginning the scan at `fromIdx` (the regex `lastIndex`). -/
def execFrom (re : Regex) (s : Str) (fromIdx : Nat) : Option (Nat × Nat) :=
  (List.range (s.length + 1)).findSome? (fun i =>
    if i < fromIdx then none
    else match matchAt re s i with
      | some e => some (i, e)
      | none => none)

/-- `RegExp.prototype.test` on a `/g` regex: searches from `lastIndex`,
returning the hit flag and the updated `lastIndex` (reset to 0 on a miss).
This statefulness is shared across calls in the source, because each
pattern object lives at module scope. -/
def gTest (re : Regex) (s : Str) (lastIndex : Nat) : Bool × Nat :=
  match execFrom re s lastIndex with
  | some (_, e) => (true, e)
  | none => (false, 0)

/-- Stateless `test` (non-global regex, or a fresh regex literal per call). -/
def reTest (re : Regex) (s : Str) : Bool :=
  (execFrom re s 0).isSome

/-- The iteration of a `while ((match = re.exec(content)) !== null)` loop:
each found match advances `lastIndex` to the match end.  The `fuel`
argument only bounds the iteration count for termination: every regex the
source uses in such a loop matches at least one character, so `lastIndex`
strictly increases and can do so at most `s.length + 1` times (on an empty
match JS itself would loop forever). -/
def execAllGo (re : Regex) (s : Str) : Nat → Nat → List (Nat × Nat)
  | 0, _ => []
  | fuel + 1, fromIdx =>
    match execFrom re s fromIdx with
    | none => []
    | some (i, e) => (i, e) :: execAllGo re s fuel e

/-- All matches of a `/g` regex from `fromIdx`. -/
def execAll (re : Regex) (s : Str) (fromIdx : Nat) : List (Nat × Nat) :=
  execAllGo re s (s.length + 1) fromIdx

/-! ### Data model: severities, findings, the issue store -/

/-- The severity enum of the source (`ISSUES` keys), in rank order. -/
inductive Severity where
  | critical | high | medium | low | info
  deriving DecidableEq, Repr

/-- One reported issue, mirroring the objects pushed onto `ISSUES[severity]`:
`{file, line, message, code}`. -/
structure Finding where
  file : Str
  line : Nat
  message : Str
  code : Str
  deriving DecidableEq, Repr

/-- The global `ISSUES` accumulator: one insertion-ordered bucket per
severity. -/
structure IssueStore where
  critical : List Finding
  high : List Finding
  medium : List Finding
  low : List Finding
  info : List Finding
  deriving DecidableEq, Repr

/-- The empty store, as initialised at module load. -/
def emptyStore : IssueStore := ⟨[], [], [], [], []⟩

/-- `ISSUES[severity].push(finding)`. -/
def IssueStore.push (st : IssueStore) (sev : Severity) (f : Finding) : IssueStore :=
  match sev with
  | .critical => { st with critical := st.critical ++ [f] }
  | .high => { st with high := st.high ++ [f] }
  | .medium => { st with medium := st.medium ++ [f] }
  | .low => { st with low := st.low ++ [f] }
  | .info => { st with info := st.info ++ [f] }

/-! ### String helpers used by the source -/

/-- `String.prototype.trim` (ASCII whitespace). -/
def trimStr (s : Str) : Str :=
  ((s.dropWhile isWsChar).reverse.dropWhile isWsChar).reverse

/-- Does `sub` occur somewhere in `s` (JS `String.prototype.includes`)? -/
def containsSub (s sub : Str) : Bool :=
  (List.range (s.length + 1)).any (fun i => litAt sub false s i)

/-- JS `String.prototype.endsWith`. -/
def endsWithStr (suffix s : Str) : Bool := List.isSuffixOf suffix s

/-- JS `String.prototype.startsWith`. -/
def startsWithStr (pre s : Str) : Bool := List.isPrefixOf pre s

/-- `s.replace(sub, repl)` for plain strings: replace the first occurrence
of `sub`, or return `s` unchanged. -/
def replaceFirst (sub repl s : Str) : Str :=
  match (List.range (s.length + 1)).find? (fun i => litAt sub false s i) with
  | some i => s.take i ++ repl ++ s.drop (i + sub.length)
  | none => s

/-- Decimal rendering of a number, for template-literal interpolation. -/
def natToStr (n : Nat) : Str := (Nat.repr n).toList

/-- `content.split('\n')` — the line array of a file's content. -/
def splitLines : Str → List Str
  | [] => [[]]
  | c :: rest =>
    match splitLines rest with
    | [] => [[]]
    | l :: ls => if c = '\n' then [] :: l :: ls else (c :: l) :: ls

/-- `path.split('/')`. -/
def splitSlash : Str → List Str
  | [] => [[]]
  | c :: rest =>
    match splitSlash rest with
    | [] => [[]]
    | l :: ls => if c = '/' then [] :: l :: ls else (c :: l) :: ls

/-- `file.split('/').pop()` — the last path component (`split` never yields
an empty array, so `pop` is the last element). -/
def lastComp (p : Str) : Str := (splitSlash p).getLastD []

/-- Node's `path.extname`: the suffix from the last `.` of the last path
component, or empty when there is no `.` past the first character. -/
def extname (p : Str) : Str :=
  let base := lastComp p
  match (List.range base.length).reverse.find? (fun i => charAt base i = some '.') with
  | some i => if i = 0 then [] else base.drop i
  | none => []

/-- Deduplication preserving first insertion, as `[...new Set(xs)]`. -/
def dedupKeepFirst (xs : List Str) : List Str :=
  xs.foldl (fun acc x => if acc.contains x then acc else acc ++ [x]) []

/-- `xs.join(', ')`. -/
def joinComma : List Str → Str
  | [] => []
  | [x] => x
  | x :: y :: rest => x ++ (", ").toList ++ joinComma (y :: rest)

/-! ### Rule registries (`TS_JS_PATTERNS`, `PYTHON_PATTERNS`,
`HTML_PATTERNS`, `SQL_PATTERNS`), each regex transcribed token by token -/

/-- A line-level rule `{pattern, severity, message}`. -/
structure Rule where
  re : Regex
  severity : Severity
  message : Str

/-- Whitespace class repetition `\s*`. -/
def wsStar : RTok := .cls isWsChar false

/-- Whitespace class repetition `\s+`. -/
def wsPlus : RTok := .cls isWsChar true

/-- `.` repetition `.*` (any character except newline). -/
def dotStar : RTok := .cls (fun c => c ≠ '\n') false

/-- The TypeScript/JavaScript rules. -/
def TS_JS_PATTERNS : List Rule := [
  -- /dangerouslySetInnerHTML/g
  ⟨⟨[[.lit ("dangerouslySetInnerHTML").toList false]]⟩, .critical,
    ("XSS vulnerability: dangerouslySetInnerHTML without sanitization").toList⟩,
  -- /:\s*any(\[|\s|;|\))/g
  ⟨⟨[[.lit (":").toList false, wsStar, .lit ("any").toList false,
      .one (fun c => c = '[' ∨ isWsChar c ∨ c = ';' ∨ c = ')')]]⟩, .high,
    ("Type safety issue: any type used").toList⟩,
  -- /console\.log\(/g
  ⟨⟨[[.lit ("console.log(").toList false]]⟩, .medium,
    ("console.log found (use proper logging)").toList⟩,
  -- /TODO|FIXME|HACK|XXX/g
  ⟨⟨[[.lit ("TODO").toList false], [.lit ("FIXME").toList false],
     [.lit ("HACK").toList false], [.lit ("XXX").toList false]]⟩, .low,
    ("TODO/FIXME comment found").toList⟩]

/-- The Python rules. -/
def PYTHON_PATTERNS : List Rule := [
  -- /\beval\s*\(/g
  ⟨⟨[[.wb, .lit ("eval").toList false, wsStar, .lit ("(").toList false]]⟩, .critical,
    ("Security risk: eval() can execute arbitrary code").toList⟩,
  -- /\bexec\s*\(/g
  ⟨⟨[[.wb, .lit ("exec").toList false, wsStar, .lit ("(").toList false]]⟩, .critical,
    ("Security risk: exec() can execute arbitrary code").toList⟩,
  -- /\bpickle\.loads?\s*\(/g
  ⟨⟨[[.wb, .lit ("pickle.load").toList false, .litalts [("s").toList, []] false,
      wsStar, .lit ("(").toList false]]⟩, .critical,
    ("Security risk: pickle.load() can execute arbitrary code. Use json or validate input").toList⟩,
  -- /\bprint\s*\(/g
  ⟨⟨[[.wb, .lit ("print").toList false, wsStar, .lit ("(").toList false]]⟩, .medium,
    ("print() found (use logging module for production code)").toList⟩,
  -- /\bAny\b/g
  ⟨⟨[[.wb, .lit ("Any").toList false, .wb]]⟩, .high,
    ("Type safety: Any type used (from typing). Prefer specific types").toList⟩,
  -- /TODO|FIXME|HACK|XXX/g
  ⟨⟨[[.lit ("TODO").toList false], [.lit ("FIXME").toList false],
     [.lit ("HACK").toList false], [.lit ("XXX").toList false]]⟩, .low,
    ("TODO/FIXME comment found").toList⟩]

/-- The HTML rules. -/
def HTML_PATTERNS : List Rule := [
  -- /<script[^>]*>(?!.*nonce)(?!.*CSP)[^<]*<\/script>/gi
  ⟨⟨[[.lit ("<script").toList true, .cls (fun c => c ≠ '>') false,
      .lit (">").toList true, .nla ("nonce").toList true, .nla ("CSP").toList true,
      .cls (fun c => c ≠ '<') false, .lit ("</script>").toList true]]⟩, .critical,
    ("Inline script without nonce/CSP protection (XSS risk)").toList⟩,
  -- /onclick\s*=/gi
  ⟨⟨[[.lit ("onclick").toList true, wsStar, .lit ("=").toList true]]⟩, .high,
    ("Inline event handler (onclick) - XSS risk. Use addEventListener instead").toList⟩,
  -- /onerror\s*=|onload\s*=|onmouseover\s*=/gi
  ⟨⟨[[.lit ("onerror").toList true, wsStar, .lit ("=").toList true],
     [.lit ("onload").toList true, wsStar, .lit ("=").toList true],
     [.lit ("onmouseover").toList true, wsStar, .lit ("=").toList true]]⟩, .high,
    ("Inline event handler - XSS risk. Use addEventListener instead").toList⟩,
  -- /<img[^>]*(?!.*alt=)[^>]*>/gi
  ⟨⟨[[.lit ("<img").toList true, .cls (fun c => c ≠ '>') false,
      .nla ("alt=").toList true, .cls (fun c => c ≠ '>') false,
      .lit (">").toList true]]⟩, .medium,
    ("Image missing alt attribute (accessibility issue)").toList⟩,
  -- /<style[^>]*>(?!.*nonce)[^<]*<\/style>/gi
  ⟨⟨[[.lit ("<style").toList true, .cls (fun c => c ≠ '>') false,
      .lit (">").toList true, .nla ("nonce").toList true,
      .cls (fun c => c ≠ '<') false, .lit ("</style>").toList true]]⟩, .medium,
    ("Inline styles without nonce/CSP protection").toList⟩,
  -- /javascript:/gi
  ⟨⟨[[.lit ("javascript:").toList true]]⟩, .critical,
    ("javascript: protocol in href/src (XSS risk)").toList⟩,
  -- /TODO|FIXME|HACK|XXX/g
  ⟨⟨[[.lit ("TODO").toList false], [.lit ("FIXME").toList false],
     [.lit ("HACK").toList false], [.lit ("XXX").toList false]]⟩, .low,
    ("TODO/FIXME comment found").toList⟩]

/-- The SQL rules. -/
def SQL_PATTERNS : List Rule := [
  -- /SELECT\s+.*\s+FROM\s+.*\s+WHERE\s+.*['"]\s*\+\s*['"]/gi
  ⟨⟨[[.lit ("SELECT").toList true, wsPlus, dotStar, wsPlus,
      .lit ("FROM").toList true, wsPlus, dotStar, wsPlus,
      .lit ("WHERE").toList true, wsPlus, dotStar,
      .one isQuoteChar, wsStar, .lit ("+").toList true, wsStar, .one isQuoteChar]]⟩,
    .critical,
    ("SQL injection risk: String concatenation in WHERE clause. Use parameterized queries").toList⟩,
  -- /INSERT\s+INTO\s+.*\s+VALUES\s*\([^)]*['"]\s*\+\s*['"]/gi
  ⟨⟨[[.lit ("INSERT").toList true, wsPlus, .lit ("INTO").toList true, wsPlus,
      dotStar, wsPlus, .lit ("VALUES").toList true, wsStar, .lit ("(").toList true,
      .cls (fun c => c ≠ ')') false,
      .one isQuoteChar, wsStar, .lit ("+").toList true, wsStar, .one isQuoteChar]]⟩,
    .critical,
    ("SQL injection risk: String concatenation in INSERT. Use parameterized queries").toList⟩,
  -- /UPDATE\s+.*\s+SET\s+.*['"]\s*\+\s*['"]/gi
  ⟨⟨[[.lit ("UPDATE").toList true, wsPlus, dotStar, wsPlus,
      .lit ("SET").toList true, wsPlus, dotStar,
      .one isQuoteChar, wsStar, .lit ("+").toList true, wsStar, .one isQuoteChar]]⟩,
    .critical,
    ("SQL injection risk: String concatenation in UPDATE. Use parameterized queries").toList⟩,
  -- /password\s*=\s*['"][^'"]+['"]/gi
  ⟨⟨[[.lit ("password").toList true, wsStar, .lit ("=").toList true, wsStar,
      .one isQuoteChar, .cls (fun c => ¬ isQuoteChar c) true, .one isQuoteChar]]⟩,
    .critical,
    ("Hardcoded password found. Use environment variables or secure config").toList⟩,
  -- /(?:password|pwd|passwd)\s*=\s*['"][^'"]+['"]/gi
  ⟨⟨[[.litalts [("password").toList, ("pwd").toList, ("passwd").toList] true,
      wsStar, .lit ("=").toList true, wsStar,
      .one isQuoteChar, .cls (fun c => ¬ isQuoteChar c) true, .one isQuoteChar]]⟩,
    .critical,
    ("Hardcoded credentials found. Use environment variables").toList⟩,
  -- /SELECT\s+\*\s+FROM/gi
  ⟨⟨[[.lit ("SELECT").toList true, wsPlus, .lit ("*").toList true, wsPlus,
      .lit ("FROM").toList true]]⟩, .medium,
    ("SELECT * found. Consider specifying columns explicitly").toList⟩,
  -- /TODO|FIXME|HACK|XXX/g
  ⟨⟨[[.lit ("TODO").toList false], [.lit ("FIXME").toList false],
     [.lit ("HACK").toList false], [.lit ("XXX").toList false]]⟩, .low,
    ("TODO/FIXME comment found").toList⟩]

/-! ### Configuration and language classification -/

/-- `MAX_FILE_SIZE` (lines). -/
def MAX_FILE_SIZE : Nat := 500

/-- `MAX_COMPONENT_SIZE` (lines). -/
def MAX_COMPONENT_SIZE : Nat := 300

/-- `SUPPORTED_EXTENSIONS`. -/
def SUPPORTED_EXTENSIONS : List Str :=
  [(".ts").toList, (".tsx").toList, (".js").toList, (".jsx").toList,
   (".py").toList, (".html").toList, (".htm").toList, (".sql").toList]

/-- The directory deny-list of `getAllFiles`. -/
def SKIP_DIRS : List Str :=
  [("node_modules").toList, ("dist").toList, ("build").toList, (".git").toList,
   ("scripts").toList, (".next").toList, (".nuxt").toList, ("coverage").toList,
   (".vscode").toList, (".idea").toList]

/-- `getFileExtension`: `extname(filePath).toLowerCase()`. -/
def getFileExtension (p : Str) : Str := toLowerStr (extname p)

/-- The supported languages, as distinguished by `getPatternsForFile`. -/
inductive Lang where
  | tsjs | python | html | sql | other
  deriving DecidableEq, Repr

/-- The extension dispatch of `getPatternsForFile` (the returned pattern
list is identified by its language tag so that its `lastIndex` state can be
threaded; `rulesOf` recovers the list itself). -/
def classify (p : Str) : Lang :=
  let ext := getFileExtension p
  if ext ∈ [(".ts").toList, (".tsx").toList, (".js").toList, (".jsx").toList] then .tsjs
  else if ext = (".py").toList then .python
  else if ext ∈ [(".html").toList, (".htm").toList] then .html
  else if ext = (".sql").toList then .sql
  else .other

/-- The pattern list returned by `getPatternsForFile`. -/
def rulesOf : Lang → List Rule
  | .tsjs => TS_JS_PATTERNS
  | .python => PYTHON_PATTERNS
  | .html => HTML_PATTERNS
  | .sql => SQL_PATTERNS
  | .other => []

/-- The `lastIndex` values of the module-scoped pattern objects: one per
rule of each registry, persisting across lines and files within a run. -/
structure RegState where
  tsjs : List Nat
  python : List Nat
  html : List Nat
  sql : List Nat
  deriving DecidableEq, Repr

/-- All `lastIndex` values are 0 at module load. -/
def initRegState : RegState :=
  ⟨List.replicate 4 0, List.replicate 6 0, List.replicate 7 0, List.replicate 7 0⟩

/-- The `lastIndex` list of one registry. -/
def RegState.get : RegState → Lang → List Nat
  | ps, .tsjs => ps.tsjs
  | ps, .python => ps.python
  | ps, .html => ps.html
  | ps, .sql => ps.sql
  | _, .other => []

/-- Store back the `lastIndex` list of one registry. -/
def RegState.set : RegState → Lang → List Nat → RegState
  | ps, .tsjs, v => { ps with tsjs := v }
  | ps, .python, v => { ps with python := v }
  | ps, .html, v => { ps with html := v }
  | ps, .sql, v => { ps with sql := v }
  | ps, .other, _ => ps

/-! ### The line loop of `checkFile` -/

/-- The `patterns.forEach` body for one line: run every rule's stateful
`pattern.test(line)`, pushing `{file, line, message, code}` on a hit.
Returns the store and the updated `lastIndex` values. -/
def runRulesOnLine (relPath : Str) (lineNum : Nat) (line : Str) :
    List Rule → List Nat → IssueStore → IssueStore × List Nat
  | [], _, st => (st, [])
  | r :: rs, sts, st =>
      let (hit, st1) := gTest r.re line (sts.headD 0)
      let store :=
        if hit then
          st.push r.severity ⟨relPath, lineNum, r.message, (trimStr line).take 80⟩
        else st
      let (store', rest) := runRulesOnLine relPath lineNum line rs sts.tail store
      (store', st1 :: rest)

/-- The `lines.forEach((line, index) => ...)` loop (line numbers 1-based). -/
def scanLinesFrom (relPath : Str) (rules : List Rule) :
    List Str → Nat → List Nat → IssueStore → IssueStore × List Nat
  | [], _, sts, st => (st, sts)
  | l :: ls, n, sts, st =>
      let (st', sts') := runRulesOnLine relPath n l rules sts st
      scanLinesFrom relPath rules ls (n + 1) sts' st'

/-! ### Structural check: Python (`checkPythonFile`) -/

/-- The anchored `^def\s+(\w+)\s*\(([^)]*)\)\s*:` of `checkPythonFile`,
with its two captures (function name, parameter text).  Every quantifier is
deterministic here: `\w`, `\s`, `(`, `)` and `:` are pairwise disjoint
classes, and `[^)]*` runs to the first `)`. -/
def pyDefMatch (line : Str) : Option (Str × Str) :=
  if litAt ("def").toList false line 0 then
    let afterDef := line.drop 3
    let nWs := (afterDef.takeWhile isWsChar).length
    if nWs = 0 then none else
    let t1 := afterDef.drop nWs
    let name := t1.takeWhile isWordChar
    if name.length = 0 then none else
    match (t1.drop name.length).dropWhile isWsChar with
    | '(' :: t3 =>
      let params := t3.takeWhile (fun c => c ≠ ')')
      match t3.drop params.length with
      | ')' :: t4 =>
        match t4.dropWhile isWsChar with
        | ':' :: _ => some (name, params)
        | _ => none
      | _ => none
    | _ => none
  else none

/-- `/:\s*\w+/` — the parameter-type-hint test. -/
def paramHintRe : Regex :=
  ⟨[[.lit (":").toList false, wsStar, .cls isWordChar true]]⟩

/-- The `lines.forEach` loop of `checkPythonFile`: flag definitions that
hint parameters but not the return type. -/
def pyHintLines (relPath : Str) : List Str → Nat → IssueStore → IssueStore
  | [], _, st => st
  | l :: ls, n, st =>
    let st :=
      match pyDefMatch l with
      | some (name, params) =>
        let hasParamTypeHints := reTest paramHintRe params
        let hasReturnTypeHint := containsSub l ("->").toList
        if hasParamTypeHints ∧ ¬ hasReturnTypeHint then
          st.push .medium ⟨relPath, n,
            ("Function '").toList ++ name ++
              ("' has parameter type hints but missing return type hint. Consider adding -> ReturnType").toList,
            (trimStr l).take 80⟩
        else st
      | none => st
    pyHintLines relPath ls (n + 1) st

/-- `checkPythonFile`: return-type-hint suggestions plus the
print-without-logging check. -/
def checkPythonFile (relPath content : Str) (lines : List Str) (st : IssueStore) : IssueStore :=
  let st := pyHintLines relPath lines 1 st
  let hasLogging := containsSub content ("import logging").toList ∨
                    containsSub content ("from logging").toList
  let hasPrint := containsSub content ("print(").toList
  if hasPrint ∧ ¬ hasLogging then
    st.push .medium ⟨relPath, 1,
      ("print() statements found but logging module not imported. Use logging.getLogger() instead").toList,
      ("import logging").toList⟩
  else st

/-! ### Structural check: HTML (`checkHTMLFile`) -/

/-- `/<img[^>]*>/gi`. -/
def imgTagRe : Regex :=
  ⟨[[.lit ("<img").toList true, .cls (fun c => c ≠ '>') false, .lit (">").toList true]]⟩

/-- `/alt\s*=/i`. -/
def altAttrRe : Regex :=
  ⟨[[.lit ("alt").toList true, wsStar, .lit ("=").toList true]]⟩

/-- `/<input[^>]*id\s*=\s*['"]([^'"]+)['"][^>]*>/gi`. -/
def inputIdRe : Regex :=
  ⟨[[.lit ("<input").toList true, .cls (fun c => c ≠ '>') false,
     .lit ("id").toList true, wsStar, .lit ("=").toList true, wsStar,
     .one isQuoteChar, .cls (fun c => ¬ isQuoteChar c) true, .one isQuoteChar,
     .cls (fun c => c ≠ '>') false, .lit (">").toList true]]⟩

/-- `/<label[^>]*for\s*=\s*['"]([^'"]+)['"][^>]*>/gi`. -/
def labelForRe : Regex :=
  ⟨[[.lit ("<label").toList true, .cls (fun c => c ≠ '>') false,
     .lit ("for").toList true, wsStar, .lit ("=").toList true, wsStar,
     .one isQuoteChar, .cls (fun c => ¬ isQuoteChar c) true, .one isQuoteChar,
     .cls (fun c => c ≠ '>') false, .lit (">").toList true]]⟩

/-- The capture of `/key\s*=\s*['"]([^'"]+)['"]/i` applied to a tag text
(`key` is `id` or `for`): the attribute value between the quotes. -/
def attrCapture (key t : Str) : Option Str :=
  (List.range (t.length + 1)).findSome? (fun q =>
    if litAt key true t q then
      match (t.drop (q + key.length)).dropWhile isWsChar with
      | '=' :: t2 =>
        match t2.dropWhile isWsChar with
        | c :: t3 =>
          if isQuoteChar c then
            let v := t3.takeWhile (fun c2 => ¬ isQuoteChar c2)
            if v.length = 0 then none
            else match charAt t3 v.length with
              | some c4 => if isQuoteChar c4 then some v else none
              | none => none
          else none
        | [] => none
      | _ => none
    else none)

/-- `checkHTMLFile`: DOCTYPE presence, the thorough image-alt scan over the
whole content, and the input-id / label-for cross-reference. -/
def checkHTMLFile (relPath content : Str) (st : IssueStore) : IssueStore :=
  let st :=
    if ¬ startsWithStr ("<!doctype").toList (toLowerStr (trimStr content)) then
      st.push .low ⟨relPath, 1, ("HTML file missing DOCTYPE declaration").toList,
        ("<!DOCTYPE html>").toList⟩
    else st
  let st := (execAll imgTagRe content 0).foldl (fun st2 m =>
    let imgTag := (content.drop m.1).take (m.2 - m.1)
    if ¬ reTest altAttrRe imgTag then
      let lineNumber := (splitLines (content.take m.1)).length
      st2.push .medium ⟨relPath, lineNumber,
        ("Image missing alt attribute (accessibility issue)").toList, imgTag.take 80⟩
    else st2) st
  let inputIds := dedupKeepFirst ((execAll inputIdRe content 0).filterMap (fun m =>
    attrCapture ("id").toList ((content.drop m.1).take (m.2 - m.1))))
  let labelFors := dedupKeepFirst ((execAll labelForRe content 0).filterMap (fun m =>
    attrCapture ("for").toList ((content.drop m.1).take (m.2 - m.1))))
  inputIds.foldl (fun st2 i =>
    if ¬ labelFors.contains i then
      st2.push .medium ⟨relPath, 1,
        ("Input with id=\"").toList ++ i ++
          ("\" missing corresponding label (accessibility issue)").toList,
        ("<label for=\"").toList ++ i ++ ("\">...</label>").toList⟩
    else st2) st

/-! ### Structural check: SQL (`checkSQLFile`) -/

/-- `/[?$]\d+|:[\w]+|%s|%\([\w]+\)s/`. -/
def parameterizedRe : Regex :=
  ⟨[[.one (fun c => c = '?' ∨ c = '$'), .cls isDigitChar true],
    [.lit (":").toList false, .cls isWordChar true],
    [.lit ("%s").toList false],
    [.lit ("%(").toList false, .cls isWordChar true, .lit (")s").toList false]]⟩

/-- `/['"]\s*\+\s*['"]/`. -/
def stringConcatRe : Regex :=
  ⟨[[.one isQuoteChar, wsStar, .lit ("+").toList false, wsStar, .one isQuoteChar]]⟩

/-- `/DROP\s+(TABLE|DATABASE)/gi` (a fresh regex literal per call, so no
`lastIndex` state survives). -/
def dropTableRe : Regex :=
  ⟨[[.lit ("DROP").toList true, wsPlus,
     .litalts [("TABLE").toList, ("DATABASE").toList] true]]⟩

/-- `/IF\s+EXISTS/gi`. -/
def ifExistsRe : Regex :=
  ⟨[[.lit ("IF").toList true, wsPlus, .lit ("EXISTS").toList true]]⟩

/-- `/BEGIN\s+TRANSACTION|START\s+TRANSACTION|COMMIT|ROLLBACK/gi`. -/
def transactionsRe : Regex :=
  ⟨[[.lit ("BEGIN").toList true, wsPlus, .lit ("TRANSACTION").toList true],
    [.lit ("START").toList true, wsPlus, .lit ("TRANSACTION").toList true],
    [.lit ("COMMIT").toList true],
    [.lit ("ROLLBACK").toList true]]⟩

/-- `/;[\s]*$/gm` — statement terminators, counted globally. -/
def stmtEndRe : Regex :=
  ⟨[[.one (fun c => c = ';'), wsStar, .eol]]⟩

/-- `checkSQLFile`: concatenation-without-placeholders, unguarded `DROP`,
and multiple statements without transaction demarcation. -/
def checkSQLFile (relPath content : Str) (st : IssueStore) : IssueStore :=
  let hasParameterized := reTest parameterizedRe content
  let hasStringConcat := reTest stringConcatRe content
  let st :=
    if hasStringConcat ∧ ¬ hasParameterized then
      st.push .critical ⟨relPath, 1,
        ("SQL file contains string concatenation but no parameterized queries detected. High SQL injection risk.").toList,
        ("Use parameterized queries: ? placeholders, named parameters, or prepared statements").toList⟩
    else st
  let st :=
    if reTest dropTableRe content ∧ ¬ reTest ifExistsRe content then
      st.push .high ⟨relPath, 1,
        ("DROP statement without IF EXISTS clause. Consider adding safety checks.").toList,
        ("DROP TABLE IF EXISTS ...").toList⟩
    else st
  let hasTransactions := reTest transactionsRe content
  let hasMultipleStatements := (execAll stmtEndRe content 0).length > 1
  if hasMultipleStatements ∧ ¬ hasTransactions then
    st.push .medium ⟨relPath, 1,
      ("Multiple SQL statements found without explicit transaction handling").toList,
      ("Wrap in BEGIN TRANSACTION ... COMMIT").toList⟩
  else st

/-! ### `checkFile` -/

/-- The two size checks at the top of `checkFile` (file too large; large
`.tsx` component). -/
def sizeChecks (filePath relPath : Str) (lines : List Str) (st : IssueStore) : IssueStore :=
  let lineCount := lines.length
  let st :=
    if lineCount > MAX_FILE_SIZE then
      st.push .high ⟨relPath, 1,
        ("File is too large (").toList ++ natToStr lineCount ++
          (" lines). Consider splitting. Max recommended: ").toList ++
          natToStr MAX_FILE_SIZE ++ (" lines").toList,
        (lines.headD []).take 50 ++ ("...").toList⟩
    else st
  if endsWithStr (".tsx").toList filePath ∧ lineCount > MAX_COMPONENT_SIZE then
    st.push .medium ⟨relPath, 1,
      ("Component is large (").toList ++ natToStr lineCount ++
        (" lines). Consider extracting logic into custom hooks. Max recommended: ").toList ++
        natToStr MAX_COMPONENT_SIZE ++ (" lines").toList,
      (lines.headD []).take 50 ++ ("...").toList⟩
  else st

/-- `checkFile`.  The `readFileSync` call is not guarded by any `try`:
a read failure propagates out of `checkFile` (and, in the source, out of
`files.forEach`, aborting the run), which the `Except` models.  The file's
content is supplied with its path, since the modelled file system does not
change between discovery and reading. -/
def checkFile (projectRoot filePath : Str) (content : Except Unit Str)
    (st : IssueStore) (ps : RegState) : Except Unit (IssueStore × RegState) :=
  match content with
  | .error e => .error e
  | .ok content =>
    let relativePath := replaceFirst (projectRoot ++ ("/").toList) [] filePath
    let lines := splitLines content
    let ext := getFileExtension filePath
    let st := sizeChecks filePath relativePath lines st
    let lang := classify filePath
    let (st, langSts) := scanLinesFrom relativePath (rulesOf lang) lines 1 (ps.get lang) st
    let ps := ps.set lang langSts
    let st :=
      if ext = (".py").toList then checkPythonFile relativePath content lines st
      else if ext ∈ [(".html").toList, (".htm").toList] then checkHTMLFile relativePath content st
      else if ext = (".sql").toList then checkSQLFile relativePath content st
      else st
    .ok (st, ps)

/-! ### File discovery (`getAllFiles`) -/

/-- A file-system entry, as `getAllFiles` observes it.  A read failure of a
file surfaces only later, in `checkFile`, so the read result travels with
the entry.  A `vanished` entry is a directory that `statSync` saw but whose
`existsSync` check at the head of the recursive `getAllFiles` call returns
false (it disappeared mid-walk). -/
inductive FSEntry where
  | file : Str → Except Unit Str → FSEntry
  | dir : Str → List FSEntry → FSEntry
  | vanished : Str → FSEntry

mutual
/-- The body of the `files.forEach` of `getAllFiles` for one entry. -/
def filesOfEntry (dirPath : Str) : FSEntry → List (Str × Except Unit Str)
  | .file name content =>
      if SUPPORTED_EXTENSIONS.contains (extname name) then
        [(dirPath ++ ("/").toList ++ name, content)]
      else []
  | .dir name entries =>
      if SKIP_DIRS.contains name then []
      else filesOfEntries (dirPath ++ ("/").toList ++ name) entries
  | .vanished _ => []

/-- Traversal of a directory's entry list. -/
def filesOfEntries (dirPath : Str) : List FSEntry → List (Str × Except Unit Str)
  | [] => []
  | e :: es => filesOfEntry dirPath e ++ filesOfEntries dirPath es
end

/-- `getAllFiles(projectRoot)`: `none` models a root for which `existsSync`
is false — the function then returns the (empty) accumulator. -/
def getAllFiles (root : Str) : Option (List FSEntry) → List (Str × Except Unit Str)
  | none => []
  | some entries => filesOfEntries root entries

/-! ### Cross-file analyzers -/

/-- The service-file name filter of `checkForDuplicates`. -/
def isServiceFile (f : Str) : Bool :=
  containsSub f ("Service.").toList ∨ containsSub f ("service.").toList ∨
  containsSub f ("_service.").toList ∨ containsSub f ("_Service.").toList

/-- The grouping key: base name with a `.ts|.tsx|.js|.jsx|.py` suffix
stripped (the regex `\.(ts|tsx|js|jsx|py)$` — the candidate suffixes are
mutually exclusive), case-folded. -/
def serviceBaseName (f : Str) : Str :=
  let base := lastComp f
  let stripped :=
    match [(".ts").toList, (".tsx").toList, (".js").toList,
           (".jsx").toList, (".py").toList].find? (fun suf => endsWithStr suf base) with
    | some suf => base.take (base.length - suf.length)
    | none => base
  toLowerStr stripped

/-- Insertion into the `Map`-of-arrays `serviceMap` (JS `Map` preserves key
insertion order; values accumulate in push order). -/
def serviceMapInsert (k f : Str) : List (Str × List Str) → List (Str × List Str)
  | [] => [(k, [f])]
  | (k', fs) :: rest =>
      if k' = k then (k', fs ++ [f]) :: rest else (k', fs) :: serviceMapInsert k f rest

/-- `filePath.replace(projectRoot + '/', '')` — the project-relative path. -/
def relPath (root f : Str) : Str := replaceFirst (root ++ ("/").toList) [] f

/-- `checkForDuplicates`: group service-named files by base name; any group
with more than one distinct relative path yields one critical finding. -/
def checkForDuplicates (root : Str) (files : List Str) (st : IssueStore) : IssueStore :=
  let serviceFiles := files.filter isServiceFile
  let serviceMap := serviceFiles.foldl (fun m f => serviceMapInsert (serviceBaseName f) f m) []
  serviceMap.foldl (fun st2 g =>
    if g.2.length > 1 then
      let uniqueFiles := dedupKeepFirst (g.2.map (relPath root))
      if uniqueFiles.length > 1 then
        st2.push .critical ⟨("services/").toList, 0,
          ("Potential duplicate service files detected: ").toList ++ joinComma uniqueFiles,
          ("Consider consolidating into a single service file").toList⟩
      else st2
    else st2) st

/-- `checkForTests`: a high finding when no file matches a test-naming
convention. -/
def checkForTests (files : List Str) (st : IssueStore) : IssueStore :=
  let testFiles := files.filter (fun f =>
    containsSub f (".test.").toList ∨ containsSub f (".spec.").toList ∨
    containsSub f ("__tests__").toList ∨ containsSub f ("__test__").toList)
  if testFiles.length = 0 then
    st.push .high ⟨("project").toList, 0,
      ("No test files found. Consider adding tests for critical functionality.").toList,
      ("Set up Vitest, Jest, or your preferred testing framework").toList⟩
  else st

/-! ### Manifest inspector (`checkPackageJson`) -/

/-- The devDependencies keys that `checkPackageJson` looks up (truthiness
of each entry). -/
structure PkgJson where
  eslint : Bool
  typescriptEslintParser : Bool
  vitest : Bool
  jest : Bool
  testingLibraryReact : Bool
  mocha : Bool
  ava : Bool
  deriving DecidableEq, Repr

/-- `checkPackageJson`.  The argument models the outcome of
`existsSync` + `readFileSync` + `JSON.parse` on `<root>/package.json`:
`none` when the file is absent, `some (.error msg)` when reading or parsing
throws (with the caught `error.message`), `some (.ok pkg)` when parsed. -/
def checkPackageJson (manifest : Option (Except Str PkgJson)) (st : IssueStore) : IssueStore :=
  match manifest with
  | none =>
      st.push .info ⟨("package.json").toList, 0,
        ("No package.json found. This may not be a Node.js project.").toList, []⟩
  | some (.error msg) =>
      st.push .critical ⟨("package.json").toList, 0,
        ("Could not read package.json").toList, msg⟩
  | some (.ok pkg) =>
      let st :=
        if ¬ pkg.eslint ∧ ¬ pkg.typescriptEslintParser then
          st.push .medium ⟨("package.json").toList, 0,
            ("ESLint not configured. Consider adding for code quality enforcement.").toList,
            ("npm install -D eslint").toList⟩
        else st
      let hasTestFramework := pkg.vitest ∨ pkg.jest ∨ pkg.testingLibraryReact ∨
                              pkg.mocha ∨ pkg.ava
      if ¬ hasTestFramework then
        st.push .high ⟨("package.json").toList, 0,
          ("No testing framework found. Add Vitest, Jest, or your preferred testing framework.").toList,
          ("npm install -D vitest @testing-library/react").toList⟩
      else st

/-! ### Reporter (`generateReport`) -/

/-- The run verdict printed by `generateReport`. -/
inductive Verdict where
  | failed | passedWithWarnings | passed
  deriving DecidableEq, Repr

/-- The verdict from the severity counts. -/
def verdict (st : IssueStore) : Verdict :=
  if st.critical.length > 0 ∨ st.high.length > 0 then .failed
  else if st.medium.length > 0 ∨ st.low.length > 0 then .passedWithWarnings
  else .passed

/-- The `process.exit` argument: 1 on failure, 0 otherwise (both the
warnings case and the clean case call `process.exit(0)`). -/
def exitCode (st : IssueStore) : Nat :=
  match verdict st with
  | .failed => 1
  | .passedWithWarnings => 0
  | .passed => 0

/-- The per-severity issue listing of the report: the source iterates
`['critical', 'high', 'medium', 'low']`, printing a section for each
non-empty bucket.  Info findings are counted in the header but never
listed. -/
def renderedBuckets (st : IssueStore) : List (Severity × List Finding) :=
  ([(Severity.critical, st.critical), (Severity.high, st.high),
    (Severity.medium, st.medium), (Severity.low, st.low)]).filter
    (fun p => p.2.length > 0)

/-! ### Main execution -/

/-- `files.forEach(checkFile)`: the first uncaught read error aborts the
whole pass. -/
def scanFiles (root : Str) :
    List (Str × Except Unit Str) → IssueStore → RegState → Except Unit (IssueStore × RegState)
  | [], st, ps => .ok (st, ps)
  | f :: fs, st, ps =>
      match checkFile root f.1 f.2 st ps with
      | .error e => .error e
      | .ok (st', ps') => scanFiles root fs st' ps'

/-- The main execution sequence: discovery, per-file checks, cross-file
analyzers, manifest inspection, report.  `checkForDuplicates` and
`checkForTests` re-run `getAllFiles(projectRoot)` in the source; the file
system does not change within a run, so the same discovered list is used.
The result is the final store and the process exit status. -/
def runQualityCheck (root : Str) (fs : Option (List FSEntry))
    (manifest : Option (Except Str PkgJson)) : Except Unit (IssueStore × Nat) :=
  let files := getAllFiles root fs
  match scanFiles root files emptyStore initRegState with
  | .error e => .error e
  | .ok (st, _) =>
      let st := checkForDuplicates root (files.map Prod.fst) st
      let st := checkForTests (files.map Prod.fst) st
      let st := checkPackageJson manifest st
      .ok (st, exitCode st)

/-- Is an `Except` a success? -/
def isOkE : Except ε α → Bool
  | .ok _ => true
  | .error _ => false

/-! ## Theorems -/

/-- C1: For every final IssueStore, the process exit status is 1 if the
store contains at least one critical or at least one high Finding, and 0
otherwise; the status is unchanged by arbitrary medium, low, and info
buckets. -/
theorem c1_exit_status_from_critical_high (st : IssueStore) (m l i : List Finding) :
    exitCode st = (if st.critical.length + st.high.length = 0 then 0 else 1) ∧
    exitCode { st with medium := m, low := l, info := i } = exitCode st := by
  constructor
  · unfold exitCode verdict
    split_ifs with h1 h2 h3 <;> simp_all
  · unfold exitCode verdict
    split_ifs <;> rfl

/-- C10: Info findings never affect the exit status nor the per-severity
issue listing; with all four other buckets empty the verdict is the clean
pass with status 0, whatever the info bucket holds. -/
theorem c10_info_findings_invisible (st : IssueStore) (i' : List Finding) :
    exitCode { st with info := i' } = exitCode st ∧
    renderedBuckets { st with info := i' } = renderedBuckets st ∧
    ((renderedBuckets st).all (fun p => p.1 ≠ Severity.info)) = true ∧
    (st.critical = [] → st.high = [] → st.medium = [] → st.low = [] →
      verdict { st with info := i' } = Verdict.passed ∧
      exitCode { st with info := i' } = 0) := by
  refine ⟨rfl, rfl, ?_, ?_⟩
  · rw [List.all_eq_true]
    intro p hp
    have hp' := List.mem_of_mem_filter hp
    simp only [List.mem_cons, List.not_mem_nil, or_false] at hp'
    rcases hp' with h | h | h | h <;> subst h <;> rfl
  · intro hc hh hm hl
    constructor
    · unfold verdict
      simp [hc, hh, hm, hl]
    · unfold exitCode verdict
      simp [hc, hh, hm, hl]

/-- Witness for C10: a store whose only finding is an info finding passes
cleanly with status 0. -/
theorem c10_info_findings_invisible_witness :
    verdict ⟨[], [], [], [], [⟨("x").toList, 1, ("m").toList, []⟩]⟩ = Verdict.passed ∧
    exitCode ⟨[], [], [], [], [⟨("x").toList, 1, ("m").toList, []⟩]⟩ = 0 :=
  (c10_info_findings_invisible ⟨[], [], [], [], []⟩
    [⟨("x").toList, 1, ("m").toList, []⟩]).2.2.2 rfl rfl rfl rfl

/-- C6: Whenever a file's line count exceeds the 500-line threshold the size
checks append exactly one high finding at line 1 for that file; when the
path moreover ends in `.tsx` and the count exceeds 300 they append exactly
one additional medium finding at line 1; no other bucket is touched. -/
theorem c6_size_check_findings (filePath relPath : Str) (lines : List Str) (st : IssueStore)
    (h : lines.length > MAX_FILE_SIZE) :
    (sizeChecks filePath relPath lines st).high = st.high ++
      [⟨relPath, 1,
        ("File is too large (").toList ++ natToStr lines.length ++
          (" lines). Consider splitting. Max recommended: ").toList ++
          natToStr MAX_FILE_SIZE ++ (" lines").toList,
        (lines.headD []).take 50 ++ ("...").toList⟩] ∧
    (endsWithStr (".tsx").toList filePath ∧ lines.length > MAX_COMPONENT_SIZE →
      (sizeChecks filePath relPath lines st).medium = st.medium ++
        [⟨relPath, 1,
          ("Component is large (").toList ++ natToStr lines.length ++
            (" lines). Consider extracting logic into custom hooks. Max recommended: ").toList ++
            natToStr MAX_COMPONENT_SIZE ++ (" lines").toList,
          (lines.headD []).take 50 ++ ("...").toList⟩]) ∧
    (¬ (endsWithStr (".tsx").toList filePath ∧ lines.length > MAX_COMPONENT_SIZE) →
      (sizeChecks filePath relPath lines st).medium = st.medium) ∧
    (sizeChecks filePath relPath lines st).critical = st.critical ∧
    (sizeChecks filePath relPath lines st).low = st.low ∧
    (sizeChecks filePath relPath lines st).info = st.info := by
  simp only [sizeChecks]
  rw [if_pos h]
  refine ⟨?_, ?_, ?_, ?_, ?_, ?_⟩ <;>
    first
      | (intro hc
         first
           | (rw [if_pos hc]; simp [IssueStore.push])
           | (rw [if_neg hc]; simp [IssueStore.push]))
      | (split_ifs <;> simp [IssueStore.push])

/-- The inputs of the C6 witness: a 501-line `.tsx` file. -/
def c6lines : List Str := List.replicate 501 []

/-- The path of the C6 witness. -/
def c6path : Str := ("/p/src/Big.tsx").toList

/-- Witness for C6 at a concrete 501-line `.tsx` file. -/
theorem c6_size_check_findings_witness :
    c6lines.length > MAX_FILE_SIZE ∧
    ((sizeChecks c6path (("src/Big.tsx").toList) c6lines emptyStore).high = emptyStore.high ++
      [⟨("src/Big.tsx").toList, 1,
        ("File is too large (").toList ++ natToStr c6lines.length ++
          (" lines). Consider splitting. Max recommended: ").toList ++
          natToStr MAX_FILE_SIZE ++ (" lines").toList,
        (c6lines.headD []).take 50 ++ ("...").toList⟩] ∧
    (endsWithStr (".tsx").toList c6path ∧ c6lines.length > MAX_COMPONENT_SIZE →
      (sizeChecks c6path (("src/Big.tsx").toList) c6lines emptyStore).medium = emptyStore.medium ++
        [⟨("src/Big.tsx").toList, 1,
          ("Component is large (").toList ++ natToStr c6lines.length ++
            (" lines). Consider extracting logic into custom hooks. Max recommended: ").toList ++
            natToStr MAX_COMPONENT_SIZE ++ (" lines").toList,
          (c6lines.headD []).take 50 ++ ("...").toList⟩]) ∧
    (¬ (endsWithStr (".tsx").toList c6path ∧ c6lines.length > MAX_COMPONENT_SIZE) →
      (sizeChecks c6path (("src/Big.tsx").toList) c6lines emptyStore).medium = emptyStore.medium) ∧
    (sizeChecks c6path (("src/Big.tsx").toList) c6lines emptyStore).critical = emptyStore.critical ∧
    (sizeChecks c6path (("src/Big.tsx").toList) c6lines emptyStore).low = emptyStore.low ∧
    (sizeChecks c6path (("src/Big.tsx").toList) c6lines emptyStore).info = emptyStore.info) :=
  ⟨by unfold c6lines MAX_FILE_SIZE; rw [List.length_replicate]; omega,
   c6_size_check_findings c6path (("src/Big.tsx").toList) c6lines emptyStore
     (by unfold c6lines MAX_FILE_SIZE; rw [List.length_replicate]; omega)⟩

/-- The length of `content.split('\n')` is the newline count plus one. -/
theorem splitLines_length (s : Str) : (splitLines s).length = s.count '\n' + 1 := by
  induction s with
  | nil => rfl
  | cons c rest ih =>
    cases h : splitLines rest with
    | nil => rw [h] at ih; simp at ih
    | cons l ls =>
      rw [h] at ih
      simp only [List.length_cons] at ih
      simp only [splitLines, h, List.count_cons]
      by_cases hc : c = '\n' <;> simp [hc] <;> omega

/-- C9: The line count used by the size checks is the number of newline
characters plus one, so content with exactly 500 newlines (a 500-line file
ending in a newline) is counted as 501 lines and receives the
file-too-large high finding. -/
theorem c9_trailing_newline_triggers (content filePath relPath : Str) (st : IssueStore) :
    (splitLines content).length = content.count '\n' + 1 ∧
    (content.count '\n' = 500 →
      (sizeChecks filePath relPath (splitLines content) st).high = st.high ++
        [⟨relPath, 1,
          ("File is too large (").toList ++ natToStr 501 ++
            (" lines). Consider splitting. Max recommended: ").toList ++
            natToStr MAX_FILE_SIZE ++ (" lines").toList,
          ((splitLines content).headD []).take 50 ++ ("...").toList⟩]) := by
  refine ⟨splitLines_length content, ?_⟩
  intro h5
  have hl : (splitLines content).length = 501 := by rw [splitLines_length, h5]
  simp only [sizeChecks]
  rw [hl]
  rw [if_pos (by decide : 501 > MAX_FILE_SIZE)]
  split_ifs <;> simp [IssueStore.push]

/-- The content of the C9 witness: 500 lines, each ended by a newline. -/
def c9content : Str := List.replicate 500 '\n'

/-- Witness for C9 at concrete content consisting of 500 newlines. -/
theorem c9_trailing_newline_triggers_witness :
    c9content.count '\n' = 500 ∧
    (sizeChecks (("/p/a.ts").toList) (("a.ts").toList) (splitLines c9content) emptyStore).high =
      emptyStore.high ++
        [⟨("a.ts").toList, 1,
          ("File is too large (").toList ++ natToStr 501 ++
            (" lines). Consider splitting. Max recommended: ").toList ++
            natToStr MAX_FILE_SIZE ++ (" lines").toList,
          ((splitLines c9content).headD []).take 50 ++ ("...").toList⟩] :=
  ⟨by unfold c9content; rw [List.count_replicate_self],
   (c9_trailing_newline_triggers c9content (("/p/a.ts").toList) (("a.ts").toList) emptyStore).2
     (by unfold c9content; rw [List.count_replicate_self])⟩

/-- The C2 failing input: a `.ts` file whose two lines each contain a
`console.log(` call. -/
def c2content : Str := ("console.log(a)\nconsole.log(b)").toList

/-- C2 (divergence): on the two-`console.log`-line file, `checkFile` emits a
medium finding only for line 1 — the shared `/g` pattern's `lastIndex`
carries over from line 1 and makes the `test` on line 2 miss — even though
a fresh test of every TS/JS rule on line 2's text shows the `console.log`
rule matching it.  Rule application is therefore not line-independent. -/
theorem c2_stateful_pattern_skips_line2 :
    checkFile (("/p").toList) (("/p/a.ts").toList) (.ok c2content) emptyStore initRegState =
      .ok (⟨[], [],
        [⟨("a.ts").toList, 1, ("console.log found (use proper logging)").toList,
          ("console.log(a)").toList⟩], [], []⟩, initRegState) ∧
    TS_JS_PATTERNS.map (fun r => gTest r.re (("console.log(b)").toList) 0) =
      [(false, 0), (false, 0), (true, 12), (false, 0)] := by
  constructor <;> rfl

/-- The C5 failing input: an HTML file with an image tag carrying `alt` on
line 1 and an image tag lacking `alt` on line 2. -/
def c5content : Str := ("<img src=\"a.png\" alt=\"a\">\n<img src=\"b.png\">").toList

/-- C5 (divergence): on the two-image HTML file, `checkFile` emits two
medium missing-alt findings — the line-level `HTML_PATTERNS` image rule,
whose negative lookahead only inspects the text after the tag's closing
`>`, fires at line 1 on the tag that does carry `alt` (as the final
conjunct shows), and `checkHTMLFile` adds the correct finding at line 2 —
instead of the single line-2 finding the specification demands. -/
theorem c5_two_missing_alt_findings :
    checkFile (("/p").toList) (("/p/index.html").toList) (.ok c5content) emptyStore initRegState =
      .ok (⟨[], [],
        [⟨("index.html").toList, 1, ("Image missing alt attribute (accessibility issue)").toList,
          ("<img src=\"a.png\" alt=\"a\">").toList⟩,
         ⟨("index.html").toList, 2, ("Image missing alt attribute (accessibility issue)").toList,
          ("<img src=\"b.png\">").toList⟩],
        [⟨("index.html").toList, 1, ("HTML file missing DOCTYPE declaration").toList,
          ("<!DOCTYPE html>").toList⟩], []⟩, initRegState) ∧
    reTest altAttrRe (("<img src=\"a.png\" alt=\"a\">").toList) = true := by
  constructor <;> rfl

/-- `checkFile` on readable content always succeeds (its only failure
source is the unguarded read). -/
theorem checkFile_isOk (root p c : Str) (st : IssueStore) (ps : RegState) :
    ∃ r, checkFile root p (.ok c) st ps = .ok r := ⟨_, rfl⟩

/-- `files.forEach(checkFile)` completes when every file is readable. -/
theorem scanFiles_isOk (root : Str) :
    ∀ (files : List (Str × Except Unit Str)) (st : IssueStore) (ps : RegState),
      files.all (fun f => isOkE f.2) = true →
      ∃ r, scanFiles root files st ps = .ok r := by
  intro files
  induction files with
  | nil => exact fun st ps _ => ⟨(st, ps), rfl⟩
  | cons f fs ih =>
    intro st ps hall
    rw [List.all_cons] at hall
    have h1 := (Bool.and_eq_true _ _).mp hall
    cases hf2 : f.2 with
    | error e => rw [hf2] at h1; simp [isOkE] at h1
    | ok c =>
      obtain ⟨⟨st1, ps1⟩, hr1⟩ := checkFile_isOk root f.1 c st ps
      simp only [scanFiles]
      rw [hf2, hr1]
      exact ih st1 ps1 h1.2

/-- C3 counterexample: a run over a directory whose second file is
unreadable returns the propagated read error — it does not record a medium
finding for that file and does not continue to the third file or to the
report. -/
theorem c3_unreadable_file_aborts_run :
    runQualityCheck (("/p").toList)
      (some [.file (("a.ts").toList) (.ok (("let x = 1").toList)),
             .file (("b.ts").toList) (Except.error ()),
             .file (("c.ts").toList) (.ok (("let y = 2").toList))]) none =
      .error () := rfl

/-- C3 (amended): an unreadable discovered file makes the per-file pass
abort with the read error, whatever readable files precede it and whatever
follows; no finding of any severity is recorded for it. -/
theorem c3_read_error_aborts (root : Str) (pre post : List (Str × Except Unit Str))
    (p : Str) (st : IssueStore) (ps : RegState)
    (hpre : pre.all (fun f => isOkE f.2) = true) :
    scanFiles root (pre ++ (p, Except.error ()) :: post) st ps = .error () := by
  induction pre generalizing st ps with
  | nil => rfl
  | cons f fs ih =>
    rw [List.cons_append, List.all_cons] at *
    have h1 := (Bool.and_eq_true _ _).mp hpre
    cases hf2 : f.2 with
    | error e => rw [hf2] at h1; simp [isOkE] at h1
    | ok c =>
      obtain ⟨⟨st1, ps1⟩, hr1⟩ := checkFile_isOk root f.1 c st ps
      simp only [scanFiles]
      rw [hf2, hr1]
      exact ih st1 ps1 h1.2

/-- Witness for the amended C3 at a concrete two-file list. -/
theorem c3_read_error_aborts_witness :
    scanFiles (("/p").toList)
      [((("/p/a.ts").toList), .ok (("let x = 1").toList)),
       ((("/p/b.ts").toList), Except.error ())]
      emptyStore initRegState = .error () :=
  c3_read_error_aborts (("/p").toList)
    [((("/p/a.ts").toList), .ok (("let x = 1").toList))] []
    (("/p/b.ts").toList) emptyStore initRegState (by decide)

/-- C4 counterexample: with a nonexistent project root the run does not
fail with an I/O error; it proceeds through all analyzers and reporting,
producing the no-test-files high finding, the missing-manifest info
finding, and exit status 1. -/
theorem c4_missing_root_still_reports :
    runQualityCheck (("/proj").toList) none none =
      .ok (⟨[],
        [⟨("project").toList, 0,
          ("No test files found. Consider adding tests for critical functionality.").toList,
          ("Set up Vitest, Jest, or your preferred testing framework").toList⟩],
        [], [],
        [⟨("package.json").toList, 0,
          ("No package.json found. This may not be a Node.js project.").toList, []⟩]⟩,
        1) := rfl

/-- C4 (amended): a nonexistent root yields an empty traversal and the run
continues to analysis and reporting without any I/O failure; a directory
that vanishes mid-walk (`existsSync` false on recursion) is silently
skipped. -/
theorem c4_missing_root_continues (root dirPath name : Str)
    (manifest : Option (Except Str PkgJson)) (pre post : List FSEntry) :
    getAllFiles root none = [] ∧
    isOkE (runQualityCheck root none manifest) = true ∧
    filesOfEntries dirPath (pre ++ FSEntry.vanished name :: post) =
      filesOfEntries dirPath (pre ++ post) := by
  refine ⟨rfl, rfl, ?_⟩
  induction pre with
  | nil => simp [filesOfEntries, filesOfEntry]
  | cons e es ih =>
    simp only [List.cons_append, filesOfEntries, List.append_eq]
    rw [ih]

/-- C7: When the service-named files of the discovered set are exactly a
`UserService.ts` and a `userservice.js` with distinct relative paths, the
duplicate detector records exactly one critical finding whose message lists
both relative paths. -/
theorem c7_duplicate_service_files (root : Str) (files : List Str) (p1 p2 : Str)
    (st : IssueStore)
    (hfilter : files.filter isServiceFile = [p1, p2])
    (h1 : lastComp p1 = ("UserService.ts").toList)
    (h2 : lastComp p2 = ("userservice.js").toList)
    (hne : relPath root p1 ≠ relPath root p2) :
    checkForDuplicates root files st =
      st.push .critical ⟨("services/").toList, 0,
        ("Potential duplicate service files detected: ").toList ++
          relPath root p1 ++ (", ").toList ++ relPath root p2,
        ("Consider consolidating into a single service file").toList⟩ := by
  have hb1 : serviceBaseName p1 = ("userservice").toList := by
    unfold serviceBaseName
    rw [h1]
    rfl
  have hb2 : serviceBaseName p2 = ("userservice").toList := by
    unfold serviceBaseName
    rw [h2]
    rfl
  have hc : (relPath root p1 == relPath root p2) = false :=
    beq_eq_false_iff_ne.mpr hne
  unfold checkForDuplicates
  rw [hfilter]
  simp only [List.foldl_cons, List.foldl_nil, hb1, hb2]
  simp only [serviceMapInsert, if_pos]
  simp only [List.cons_append, List.nil_append]
  simp [dedupKeepFirst, joinComma, hc, Ne.symm hne]

/-- Witness for C7: `src/UserService.ts` and `lib/userservice.js` under the
same root. -/
theorem c7_duplicate_service_files_witness :
    checkForDuplicates (("/proj").toList)
      [("/proj/src/UserService.ts").toList, ("/proj/lib/userservice.js").toList]
      emptyStore =
      emptyStore.push .critical ⟨("services/").toList, 0,
        ("Potential duplicate service files detected: ").toList ++
          relPath (("/proj").toList) (("/proj/src/UserService.ts").toList) ++
          (", ").toList ++
          relPath (("/proj").toList) (("/proj/lib/userservice.js").toList),
        ("Consider consolidating into a single service file").toList⟩ :=
  c7_duplicate_service_files (("/proj").toList)
    [("/proj/src/UserService.ts").toList, ("/proj/lib/userservice.js").toList]
    (("/proj/src/UserService.ts").toList) (("/proj/lib/userservice.js").toList)
    emptyStore (by decide) (by decide) (by decide) (by decide)

/-- C8: A present-but-unparsable package manifest is recorded as exactly
one critical finding (nothing else changes in the store), and a run whose
discovered files are all readable still completes and produces a report. -/
theorem c8_unparsable_manifest_continues (root : Str) (fs : Option (List FSEntry))
    (msg : Str) (st : IssueStore)
    (hread : (getAllFiles root fs).all (fun f => isOkE f.2) = true) :
    checkPackageJson (some (.error msg)) st =
      { st with critical := st.critical ++
          [⟨("package.json").toList, 0, ("Could not read package.json").toList, msg⟩] } ∧
    isOkE (runQualityCheck root fs (some (.error msg))) = true := by
  constructor
  · rfl
  · obtain ⟨⟨st1, ps1⟩, hr⟩ :=
      scanFiles_isOk root (getAllFiles root fs) emptyStore initRegState hread
    simp only [runQualityCheck]
    rw [hr]
    rfl

/-- Witness for C8: one readable file, an unparsable manifest. -/
theorem c8_unparsable_manifest_continues_witness :
    (checkPackageJson (some (.error (("Unexpected token").toList))) emptyStore =
      { emptyStore with critical := emptyStore.critical ++
          [⟨("package.json").toList, 0, ("Could not read package.json").toList,
            ("Unexpected token").toList⟩] }) ∧
    isOkE (runQualityCheck (("/p").toList)
      (some [.file (("a.ts").toList) (.ok (("let x = 1").toList))])
      (some (.error (("Unexpected token").toList)))) = true :=
  c8_unparsable_manifest_continues (("/p").toList)
    (some [.file (("a.ts").toList) (.ok (("let x = 1").toList))])
    (("Unexpected token").toList) emptyStore (by decide)

end QualityCheck
